import Mathlib

/-!
Verification of the client-side behavior layer of the Dosmac Electrical
marketing site (`assets/js/main.js`).  Each controller of the script is
shallowly embedded as a pure Lean function or an explicit state machine:
CSS class lists become `List String`, DOM elements that may be absent become
`Option`, scroll offsets and animation times become rationals, and the
side-effecting submission flow becomes a function returning an ordered list
of emitted UI actions.
-/

/-! ## Configuration (the `CONFIG` object) -/

/-- `CONFIG.WHATSAPP_NUMBER`. -/
def WHATSAPP_NUMBER : String := "263717675763"

/-- `CONFIG.FORM_ACTION_URL` as shipped (empty: WhatsApp fallback only). -/
def FORM_ACTION_URL : String := ""

/-- `CONFIG.NAVBAR_SCROLL_THRESHOLD` (pixels). -/
def NAVBAR_SCROLL_THRESHOLD : ℚ := 80

/-- `CONFIG.COUNTER_DURATION_MS` (milliseconds). -/
def COUNTER_DURATION_MS : ℚ := 2000

/-! ## DOM `classList` model

`classList.add` appends the token when absent; `classList.remove` deletes
every occurrence of the token. -/

/-- `el.classList.add c`. -/
def classAdd (c : String) (l : List String) : List String :=
  if c ∈ l then l else l ++ [c]

/-- `el.classList.remove c`. -/
def classRemove (c : String) (l : List String) : List String :=
  l.filter (fun x => x != c)

theorem mem_classAdd_self (c : String) (l : List String) : c ∈ classAdd c l := by
  unfold classAdd
  split
  · assumption
  · simp

theorem not_mem_classRemove_self (c : String) (l : List String) :
    c ∉ classRemove c l := by
  unfold classRemove
  simp

/-! ## ScrollStyleController (`handleNavbarScroll` + `debounce`) -/

/-- The body of `updateNavbar`: adds `navbar--scrolled` when the current
scroll offset exceeds the threshold, removes it otherwise. -/
def updateNavbar (scrollY : ℚ) (classes : List String) : List String :=
  if scrollY > NAVBAR_SCROLL_THRESHOLD then
    classAdd "navbar--scrolled" classes
  else
    classRemove "navbar--scrolled" classes

/-- `debounce` keeps a single pending timer: each invocation clears the
pending one and schedules itself; once the burst is over only the last
invocation runs.  The pending slot after a sequence of invocations. -/
def debouncePending {α : Type} (calls : List α) : Option α :=
  calls.foldl (fun _ a => some a) none

/-- The navbar class list once the debounced scroll handler has settled
after a burst of scroll events (the handler reads the then-current offset,
which is the one of the last event). -/
def debouncedScrollSettle (offsets : List ℚ) (classes : List String) : List String :=
  match debouncePending offsets with
  | some o => updateNavbar o classes
  | none => classes

theorem mem_updateNavbar (o : ℚ) (cs : List String) :
    "navbar--scrolled" ∈ updateNavbar o cs ↔ NAVBAR_SCROLL_THRESHOLD < o := by
  unfold updateNavbar
  split
  · next h => simp [mem_classAdd_self, h]
  · next h =>
    simp only [not_lt] at h
    simp [not_mem_classRemove_self, not_lt.mpr h]

theorem debouncePending_append_last {α : Type} (burst : List α) (a : α) :
    debouncePending (burst ++ [a]) = some a := by
  unfold debouncePending
  rw [List.foldl_append]
  rfl

/-- C4: after the debounced handler settles (the last scroll event of the
burst carrying offset `o`), and likewise after the unconditional call on
initialization with load offset `o`, the navbar carries the
`navbar--scrolled` class iff `o` strictly exceeds the configured
threshold. -/
theorem navbar_scrolled_iff_threshold (o : ℚ) (cs : List String) (burst : List ℚ) :
    ("navbar--scrolled" ∈ debouncedScrollSettle (burst ++ [o]) cs ↔
      NAVBAR_SCROLL_THRESHOLD < o) ∧
    ("navbar--scrolled" ∈ updateNavbar o cs ↔ NAVBAR_SCROLL_THRESHOLD < o) := by
  constructor
  · unfold debouncedScrollSettle
    rw [debouncePending_append_last]
    exact mem_updateNavbar o cs
  · exact mem_updateNavbar o cs

/-! ## ViewportRevealController: the count-up animation (`countUp`/`step`)

`step` computes `progress = min(elapsed/duration, 1)`,
`eased = 1 - (1-progress)^4`, displays `Math.round(eased * target)` and, once
`progress` reaches 1, snaps the text to the exact target. -/

/-- Displayed value of a counter with `data-target = target` at elapsed time
`elapsed` within an animation of length `duration`. -/
def countUpDisplay (target : ℕ) (duration elapsed : ℚ) : ℤ :=
  let progress := min (elapsed / duration) 1
  let eased := 1 - (1 - progress) ^ 4
  if progress < 1 then round (eased * (target : ℚ)) else (target : ℤ)

theorem round_mono_q {x y : ℚ} (h : x ≤ y) : round x ≤ round y := by
  rw [round_eq, round_eq]
  exact Int.floor_mono (by linarith)

theorem countUpDisplay_eq_round (target : ℕ) (duration elapsed : ℚ) :
    countUpDisplay target duration elapsed =
      round ((1 - (1 - min (elapsed / duration) 1) ^ 4) * (target : ℚ)) := by
  by_cases h : min (elapsed / duration) 1 < 1
  · simp [countUpDisplay, h]
  · have h1 : min (elapsed / duration) 1 = 1 :=
      le_antisymm (min_le_right _ _) (not_lt.mp h)
    simp [countUpDisplay, h, h1]

/-- C3: a counter with target `T` and duration `D` displays 0 at elapsed
time 0, exactly `T` at every elapsed time `≥ D`, the eased rounded value
`round((1-(1-t/D)^4)·T)` before `D`, and its displayed value is
non-decreasing over time. -/
theorem counter_display_spec (T : ℕ) (D : ℚ) (hD : 0 < D) :
    countUpDisplay T D 0 = 0
    ∧ (∀ t : ℚ, D ≤ t → countUpDisplay T D t = (T : ℤ))
    ∧ (∀ t : ℚ, 0 ≤ t → t < D →
        countUpDisplay T D t = round ((1 - (1 - t / D) ^ 4) * (T : ℚ)))
    ∧ (∀ s t : ℚ, 0 ≤ s → s ≤ t →
        countUpDisplay T D s ≤ countUpDisplay T D t) := by
  refine ⟨?_, ?_, ?_, ?_⟩
  · rw [countUpDisplay_eq_round]
    norm_num
  · intro t ht
    have h1 : (1 : ℚ) ≤ t / D := (one_le_div hD).mpr ht
    simp [countUpDisplay, min_eq_right h1]
  · intro t _ ht
    have h1 : t / D < 1 := (div_lt_one hD).mpr ht
    simp [countUpDisplay, min_eq_left (le_of_lt h1), h1]
  · intro s t _ hst
    rw [countUpDisplay_eq_round, countUpDisplay_eq_round]
    have hdiv : s / D ≤ t / D := by gcongr
    have hp : min (s / D) 1 ≤ min (t / D) 1 := min_le_min hdiv le_rfl
    have hp2 : min (t / D) 1 ≤ 1 := min_le_right _ _
    have hpow : (1 - min (t / D) 1) ^ 4 ≤ (1 - min (s / D) 1) ^ 4 :=
      pow_le_pow_left₀ (by linarith) (by linarith) 4
    exact round_mono_q
      (mul_le_mul_of_nonneg_right (by linarith) (Nat.cast_nonneg T))

/-- Witness for C3 at the shipped duration `COUNTER_DURATION_MS = 2000` and
target 100. -/
theorem counter_display_spec_witness :
    countUpDisplay 100 COUNTER_DURATION_MS 0 = 0
    ∧ countUpDisplay 100 COUNTER_DURATION_MS 2500 = 100
    ∧ countUpDisplay 100 COUNTER_DURATION_MS 500 = 68
    ∧ countUpDisplay 100 COUNTER_DURATION_MS 500 ≤
        countUpDisplay 100 COUNTER_DURATION_MS 1000 := by
  have h := counter_display_spec 100 COUNTER_DURATION_MS (by norm_num [COUNTER_DURATION_MS])
  refine ⟨h.1, h.2.1 2500 (by norm_num [COUNTER_DURATION_MS]), ?_,
    h.2.2.2 500 1000 (by norm_num) (by norm_num)⟩
  rw [h.2.2.1 500 (by norm_num) (by norm_num [COUNTER_DURATION_MS])]
  norm_num [COUNTER_DURATION_MS, round_eq]

/-! ## One-shot reveal observers (`animateCounters`, `initScrollAnimations`)

Both observers share the same callback control flow: for each delivered
entry, if `entry.isIntersecting` the one-time effect runs (`countUp` for the
counter observer, the delayed `is-visible` add for the fade observer) and the
target is immediately `unobserve`d.  The platform delivers entries only for
currently observed targets, and `observe` is idempotent.  Elements are
identified by naturals; the effect is recorded by listing each firing in
`fired`. -/

structure ObsState where
  observed : List ℕ
  fired : List ℕ

/-- The observed set after `elems.forEach(el => observer.observe(el))` on a
fresh observer. -/
def buildObserved (elems : List ℕ) : List ℕ :=
  elems.foldl (fun l e => if e ∈ l then l else e :: l) []

/-- A fresh observer over `elems`, nothing fired yet. -/
def initObserver (elems : List ℕ) : ObsState :=
  ⟨buildObserved elems, []⟩

/-- Delivery of one entry `(target, isIntersecting)`: when the target is
still observed and intersecting, the effect fires and the target is
deregistered (`observer.unobserve(entry.target)`); otherwise nothing
happens. -/
def deliverEntry (s : ObsState) (ev : ℕ × Bool) : ObsState :=
  if ev.2 && s.observed.contains ev.1 then
    { observed := s.observed.erase ev.1, fired := ev.1 :: s.fired }
  else s

/-- Run the observer over a whole trace of visibility entries. -/
def runObserver (s : ObsState) (trace : List (ℕ × Bool)) : ObsState :=
  trace.foldl deliverEntry s

/-- Invariant: observed targets are distinct and have not fired; nothing has
fired more than once. -/
def ObsInv (s : ObsState) : Prop :=
  s.observed.Nodup ∧ ∀ e, s.fired.count e ≤ 1 ∧ (e ∈ s.observed → s.fired.count e = 0)

theorem buildObserved_nodup (elems : List ℕ) : (buildObserved elems).Nodup := by
  suffices h : ∀ acc : List ℕ, acc.Nodup →
      (elems.foldl (fun l e => if e ∈ l then l else e :: l) acc).Nodup by
    exact h [] List.nodup_nil
  induction elems with
  | nil => intro acc hacc; exact hacc
  | cons e rest ih =>
    intro acc hacc
    simp only [List.foldl_cons]
    by_cases he : e ∈ acc
    · simpa [he] using ih acc hacc
    · simpa [he] using ih (e :: acc) (List.nodup_cons.mpr ⟨he, hacc⟩)

theorem deliverEntry_inv (s : ObsState) (ev : ℕ × Bool) (h : ObsInv s) :
    ObsInv (deliverEntry s ev) := by
  obtain ⟨hnd, hcnt⟩ := h
  unfold deliverEntry
  split
  · next hc =>
    have hmem : ev.1 ∈ s.observed := by
      have := (Bool.and_eq_true _ _).mp hc
      simpa using this.2
    refine ⟨hnd.erase ev.1, fun e => ?_⟩
    by_cases he : e = ev.1
    · constructor
      · have h0 : s.fired.count ev.1 = 0 := (hcnt ev.1).2 hmem
        simp [he, List.count_cons, h0]
      · intro hee
        rw [he] at hee
        exact absurd hee hnd.not_mem_erase
    · constructor
      · have h1 : s.fired.count e ≤ 1 := (hcnt e).1
        simpa [List.count_cons, he] using h1
      · intro hee
        have hmem2 : e ∈ s.observed := List.mem_of_mem_erase hee
        have h0 : s.fired.count e = 0 := (hcnt e).2 hmem2
        simp [List.count_cons, he, h0]
  · exact ⟨hnd, hcnt⟩

theorem runObserver_inv (trace : List (ℕ × Bool)) (s : ObsState) (h : ObsInv s) :
    ObsInv (runObserver s trace) := by
  induction trace generalizing s with
  | nil => exact h
  | cons ev rest ih =>
    exact ih (deliverEntry s ev) (deliverEntry_inv s ev h)

/-- C5: over any trace of visibility entries, an element observed by a
reveal observer receives its one-time effect at most once, because it is
deregistered upon the first trigger. -/
theorem reveal_effect_at_most_once (elems : List ℕ) (trace : List (ℕ × Bool)) (e : ℕ) :
    (runObserver (initObserver elems) trace).fired.count e ≤ 1 := by
  have hinit : ObsInv (initObserver elems) := by
    refine ⟨buildObserved_nodup elems, fun x => ?_⟩
    simp [initObserver]
  exact ((runObserver_inv trace _ hinit).2 e).1

/-! ## MenuController (`initMobileMenu`)

State = the class lists and ARIA attributes of the toggle button and the
panel.  Events: toggle click, nav-link click, a keydown carrying its key,
and a document click carrying whether the target lies inside the navbar. -/

structure MenuDom where
  menuClasses : List String
  toggleClasses : List String
  toggleAriaExpanded : String
  menuAriaHidden : String
deriving DecidableEq

/-- `openMenu`. -/
def openMenu (s : MenuDom) : MenuDom :=
  { menuClasses := classAdd "is-open" s.menuClasses,
    toggleClasses := classAdd "is-open" s.toggleClasses,
    toggleAriaExpanded := "true",
    menuAriaHidden := "false" }

/-- `closeMenu`. -/
def closeMenu (s : MenuDom) : MenuDom :=
  { menuClasses := classRemove "is-open" s.menuClasses,
    toggleClasses := classRemove "is-open" s.toggleClasses,
    toggleAriaExpanded := "false",
    menuAriaHidden := "true" }

/-- The contains test on `is-open` that the code uses to read the state. -/
def menuIsOpen (s : MenuDom) : Bool :=
  s.menuClasses.contains "is-open"

inductive MenuEvent where
  | toggleClick
  | navLinkClick
  | keydown (key : String)
  | docClick (insideNavbar : Bool)
deriving DecidableEq

/-- One event handled by the listeners `initMobileMenu` installs. -/
def menuStep (s : MenuDom) : MenuEvent → MenuDom
  | .toggleClick => if menuIsOpen s then closeMenu s else openMenu s
  | .navLinkClick => closeMenu s
  | .keydown key => if key == "Escape" && menuIsOpen s then closeMenu s else s
  | .docClick insideNavbar =>
      if !insideNavbar && menuIsOpen s then closeMenu s else s

/-- Modelled from the spec: the initial mobile-menu state of the markup (the HTML
document is outside src/) — closed, no `is-open` class, closed ARIA
attributes. -/
def closedMenu : MenuDom := ⟨[], [], "false", "true"⟩

/-- The canonical open state: `is-open` on both panel and toggle, open ARIA
attributes. -/
def openedMenu : MenuDom := ⟨["is-open"], ["is-open"], "true", "false"⟩

/-- States reachable from the initial closed state. -/
inductive MenuReach : MenuDom → Prop where
  | init : MenuReach closedMenu
  | step (s : MenuDom) (e : MenuEvent) : MenuReach s → MenuReach (menuStep s e)

theorem menuReach_cases (s : MenuDom) (h : MenuReach s) :
    s = closedMenu ∨ s = openedMenu := by
  induction h with
  | init => exact Or.inl rfl
  | step s e _ ih =>
    rcases ih with h1 | h1 <;> subst h1
    · cases e with
      | toggleClick => exact Or.inr (by decide)
      | navLinkClick => exact Or.inl (by decide)
      | keydown k =>
        refine Or.inl ?_
        simp [menuStep, menuIsOpen, closedMenu]
      | docClick insideNavbar =>
        refine Or.inl ?_
        cases insideNavbar <;> decide
    · cases e with
      | toggleClick => exact Or.inl (by decide)
      | navLinkClick => exact Or.inl (by decide)
      | keydown k =>
        by_cases hk : k = "Escape"
        · subst hk; exact Or.inl (by decide)
        · refine Or.inr ?_
          have hk2 : (k == "Escape") = false := by simpa using hk
          simp [menuStep, hk2]
      | docClick insideNavbar =>
        cases insideNavbar
        · exact Or.inl (by decide)
        · exact Or.inr (by decide)

/-- C7: from the closed initial state, the menu is always in one of the two
canonical states; a toggle activation flips the open bit (entering open sets
`is-open` and the open ARIA state on both toggle and panel, entering closed
clears them); nav-link click, Escape while open, and outside click while
open each force the closed state and are no-ops on the closed state. -/
theorem mobile_menu_state_machine (s : MenuDom) (hs : MenuReach s) :
    menuIsOpen closedMenu = false
    ∧ menuIsOpen (menuStep s MenuEvent.toggleClick) = !menuIsOpen s
    ∧ (menuIsOpen s = false → menuStep s MenuEvent.toggleClick = openedMenu)
    ∧ (menuIsOpen s = true → menuStep s MenuEvent.toggleClick = closedMenu)
    ∧ (∀ e : MenuEvent,
        e = MenuEvent.navLinkClick ∨ e = MenuEvent.keydown "Escape"
          ∨ e = MenuEvent.docClick false →
        (menuIsOpen s = true → menuStep s e = closedMenu)
        ∧ (menuIsOpen s = false → menuStep s e = s)) := by
  rcases menuReach_cases s hs with h1 | h1 <;> subst h1 <;>
    refine ⟨by decide, by decide, by decide, by decide, ?_⟩ <;>
    · intro e he
      rcases he with he | he | he <;> subst he <;> exact ⟨by decide, by decide⟩

/-- Witness for C7: a toggle activation from the initial closed state flips
the menu open. -/
theorem mobile_menu_state_machine_witness :
    menuIsOpen (menuStep closedMenu MenuEvent.toggleClick) = !menuIsOpen closedMenu :=
  (mobile_menu_state_machine closedMenu MenuReach.init).2.1

/-! ## PortfolioFilterController (`initPortfolioFilter`)

Tabs carry `data-filter` plus their class list and `aria-selected`; items
carry `data-category` plus their class list.  A click on tab `i` removes the
active class and `aria-selected` from every tab, activates the clicked tab,
and shows/hides every item according to its category. -/

structure PortfolioTab where
  filter : String
  classes : List String
  ariaSelected : String
deriving DecidableEq

structure PortfolioItem where
  category : String
  classes : List String
deriving DecidableEq

/-- Per-tab deactivation inside the `tabs.forEach` loop. -/
def deactivateTab (t : PortfolioTab) : PortfolioTab :=
  { t with classes := classRemove "portfolio-tab--active" t.classes
           ariaSelected := "false" }

/-- Activation of the clicked tab. -/
def activateTab (t : PortfolioTab) : PortfolioTab :=
  { t with classes := classAdd "portfolio-tab--active" t.classes
           ariaSelected := "true" }

/-- The per-item show/hide decision: show when the filter is `all` or equals
the item category, hide otherwise. -/
def applyFilterToItem (filter : String) (it : PortfolioItem) : PortfolioItem :=
  if filter == "all" || it.category == filter then
    { it with classes := classRemove "hidden" it.classes }
  else
    { it with classes := classAdd "hidden" it.classes }

/-- The click handler of tab `i`: deactivate every tab, activate the clicked
one, filter every item by the `data-filter` of the clicked tab. -/
def portfolioClick (tabs : List PortfolioTab) (i : ℕ) (items : List PortfolioItem) :
    List PortfolioTab × List PortfolioItem :=
  match tabs[i]? with
  | none => (tabs, items)
  | some tab =>
    ((tabs.map deactivateTab).set i (activateTab (deactivateTab tab)),
      items.map (applyFilterToItem tab.filter))

/-- C6: after clicking tab `i` (with filter tag `tc.filter`), exactly the
clicked tab carries the active class and `aria-selected="true"`, and an item
is shown (no `hidden` class) iff the tag is the sentinel `all` or equals the
category of the item. -/
theorem portfolio_filter_spec (tabs : List PortfolioTab) (items : List PortfolioItem)
    (i : ℕ) (tc : PortfolioTab) (hi : tabs[i]? = some tc) :
    (∀ j t, ((portfolioClick tabs i items).1)[j]? = some t →
      (("portfolio-tab--active" ∈ t.classes) ↔ j = i)
      ∧ (t.ariaSelected = "true" ↔ j = i))
    ∧ (∀ (k : ℕ) (it it2 : PortfolioItem), items[k]? = some it →
        ((portfolioClick tabs i items).2)[k]? = some it2 →
        (("hidden" ∉ it2.classes) ↔ (tc.filter = "all" ∨ it.category = tc.filter))) := by
  have hlen : i < tabs.length := by
    by_contra hcon
    rw [List.getElem?_eq_none (le_of_not_lt hcon)] at hi
    exact Option.noConfusion hi
  have hmain : portfolioClick tabs i items =
      ((tabs.map deactivateTab).set i (activateTab (deactivateTab tc)),
        items.map (applyFilterToItem tc.filter)) := by
    simp [portfolioClick, hi]
  rw [hmain]
  constructor
  · intro j t ht
    by_cases hj : j = i
    · subst hj
      have hset : ((tabs.map deactivateTab).set j
            (activateTab (deactivateTab tc)))[j]? =
          some (activateTab (deactivateTab tc)) := by
        simp [List.getElem?_set_self, hlen]
      rw [hset] at ht
      injection ht with ht
      subst ht
      refine ⟨?_, ?_⟩
      · simp [activateTab, mem_classAdd_self]
      · simp [activateTab]
    · rw [List.getElem?_set_ne (Ne.symm hj)] at ht
      rw [List.getElem?_map] at ht
      rcases Option.map_eq_some'.mp ht with ⟨orig, _, horig⟩
      subst horig
      refine ⟨?_, ?_⟩
      · simp [deactivateTab, not_mem_classRemove_self, hj]
      · simp [deactivateTab, hj]
  · intro k it it2 hit hit2
    rw [List.getElem?_map, hit] at hit2
    simp only [Option.map_some'] at hit2
    injection hit2 with hit2
    subst hit2
    unfold applyFilterToItem
    by_cases hcond : (tc.filter == "all" || it.category == tc.filter) = true
    · rw [if_pos hcond]
      simp only [Bool.or_eq_true, beq_iff_eq] at hcond
      simp [not_mem_classRemove_self, hcond]
    · rw [if_neg hcond]
      simp only [Bool.or_eq_true, beq_iff_eq] at hcond
      push_neg at hcond
      constructor
      · intro habs
        exact absurd (mem_classAdd_self _ _) habs
      · intro hor
        rcases hor with h2 | h2
        · exact absurd h2 hcond.1
        · exact absurd h2 hcond.2

/-- Demonstration tabs for the C6 witness. -/
def demoTabs : List PortfolioTab :=
  [⟨"all", ["portfolio-tab--active"], "true"⟩, ⟨"solar", [], "false"⟩]

/-- Demonstration items for the C6 witness. -/
def demoItems : List PortfolioItem :=
  [⟨"solar", []⟩, ⟨"wiring", ["hidden"]⟩]

/-- Witness for C6: clicking the `solar` tab leaves the solar item shown. -/
theorem portfolio_filter_spec_witness :
    "hidden" ∉ (applyFilterToItem "solar" (⟨"solar", []⟩ : PortfolioItem)).classes := by
  have h := portfolio_filter_spec demoTabs demoItems 1 ⟨"solar", [], "false"⟩ (by decide)
  exact (h.2 0 ⟨"solar", []⟩ (applyFilterToItem "solar" ⟨"solar", []⟩)
    (by decide) (by decide)).mpr (Or.inr rfl)

/-! ## ContactSubmissionController (`handleContactForm`)

String helpers: `value.trim()` and `encodeURIComponent` are modelled
character-by-character (ECMAScript semantics), so everything evaluates. -/

/-- ECMAScript whitespace trimmed by `String.prototype.trim`. -/
def isJsWhitespace (c : Char) : Bool :=
  c = ' ' || c = '\t' || c = '\n' || c = '\r' || c = '\x0b' || c = '\x0c'
    || c = ' ' || c = '﻿' || c = ' ' || c = ' '

/-- `value.trim()`. -/
def jsTrim (s : String) : String :=
  ⟨((s.data.dropWhile isJsWhitespace).reverse.dropWhile isJsWhitespace).reverse⟩

/-- Unreserved characters of `encodeURIComponent`
(letters, digits, hyphen, underscore, dot, bang, tilde, star, apostrophe, parens). -/
def isUriUnreserved (c : Char) : Bool :=
  c.isAlphanum || c = '-' || c = '_' || c = '.' || c = '!' || c = '~'
    || c = '*' || c = Char.ofNat 39 || c = '(' || c = ')'

/-- One uppercase hexadecimal digit. -/
def hexUpperDigit (n : ℕ) : Char :=
  if n < 10 then Char.ofNat (48 + n) else Char.ofNat (55 + n)

/-- UTF-8 bytes of a code point. -/
def utf8BytesOf (n : ℕ) : List ℕ :=
  if n < 128 then [n]
  else if n < 2048 then [192 + n / 64, 128 + n % 64]
  else if n < 65536 then [224 + n / 4096, 128 + (n / 64) % 64, 128 + n % 64]
  else [240 + n / 262144, 128 + (n / 4096) % 64, 128 + (n / 64) % 64, 128 + n % 64]

/-- Percent-encoding of one character. -/
def percentEncodeChar (c : Char) : List Char :=
  (utf8BytesOf c.toNat).foldr
    (fun b acc => '%' :: hexUpperDigit (b / 16) :: hexUpperDigit (b % 16) :: acc) []

/-- `encodeURIComponent`. -/
def encodeURIComponent (s : String) : String :=
  ⟨(s.data.map (fun c => if isUriUnreserved c then [c] else percentEncodeChar c)).flatten⟩

/-- Whether `sub` occurs as a contiguous substring of `s` (prefix test). -/
def charsStartWith : List Char → List Char → Bool
  | [], _ => true
  | _ :: _, [] => false
  | a :: as, b :: bs => a == b && charsStartWith as bs

/-- Whether the needle occurs anywhere in the haystack. -/
def charsContain (needle : List Char) : List Char → Bool
  | [] => charsStartWith needle []
  | b :: bs => charsStartWith needle (b :: bs) || charsContain needle bs

/-- Substring occurrence on strings. -/
def strContains (s sub : String) : Bool :=
  charsContain sub.data s.data

/-- An input/select element: its value and its inline border color. -/
structure ElemState where
  value : String
  borderColor : String
deriving DecidableEq

/-- A `form-error` span: its text content. -/
structure SlotState where
  text : String
deriving DecidableEq

/-- What one `validateField` call yields: its boolean result plus the
(possibly absent) field element and error slot after the call. -/
structure VFResult where
  ok : Bool
  field : Option ElemState
  error : Option SlotState
deriving DecidableEq

/-- `validateField(fieldId, errorId, message)`: when either element is
missing it returns `true` and touches nothing; otherwise it computes
`isEmpty`, writes the error text and border color, and returns `!isEmpty`. -/
def validateField (field : Option ElemState) (error : Option SlotState)
    (message : String) : VFResult :=
  match field, error with
  | some f, some _ =>
    let isEmpty := jsTrim f.value == "" || f.value == ""
    { ok := !isEmpty
      field := some { f with borderColor := if isEmpty then "#FF5555" else "" }
      error := some { text := if isEmpty then message else "" } }
  | f, er => { ok := true, field := f, error := er }

/-- The five form field values at submit time. -/
structure Fields where
  name : String
  phone : String
  service : String
  area : String
  message : String
deriving DecidableEq

/-- The four per-field outcomes of `validateForm`. -/
structure FormValidation where
  nameRes : VFResult
  phoneRes : VFResult
  serviceRes : VFResult
  areaRes : VFResult
deriving DecidableEq

/-- The four `validateField` calls of `validateForm` (all four always run;
the markup supplies every field element and error slot). -/
def validateFormStates (f : Fields) : FormValidation :=
  { nameRes := validateField (some ⟨f.name, ""⟩) (some ⟨""⟩) "Please enter your name."
    phoneRes := validateField (some ⟨f.phone, ""⟩) (some ⟨""⟩)
      "Please enter your phone number."
    serviceRes := validateField (some ⟨f.service, ""⟩) (some ⟨""⟩)
      "Please select a service type."
    areaRes := validateField (some ⟨f.area, ""⟩) (some ⟨""⟩)
      "Please enter your area or suburb." }

/-- The boolean `validateForm` returns: the conjunction of the four field
results. -/
def validateFormOk (f : Fields) : Bool :=
  (validateFormStates f).nameRes.ok && (validateFormStates f).phoneRes.ok
    && (validateFormStates f).serviceRes.ok && (validateFormStates f).areaRes.ok

/-- The fixed service-code → human-readable-label lookup. -/
def serviceLabels : List (String × String) :=
  [("solar", "Solar Installation"), ("wiring", "House Wiring / Rewire"),
    ("industrial", "Industrial / Commercial"), ("lighting", "Lighting Installation"),
    ("ac", "AC Installation / Repair"), ("db-board", "DB Board Upgrade"),
    ("other", "Other / Not Sure")]

/-- `serviceLabels[service] || service` (every label is non-empty, so JS
truthiness coincides with lookup success). -/
def serviceLabel (service : String) : String :=
  (serviceLabels.lookup service).getD service

/-- The composed WhatsApp message lines, before dropping empty ones. -/
def waLines (f : Fields) : List String :=
  ["Hi Dosmac! I\x27d like a quote for:",
    "Service: " ++ serviceLabel f.service,
    "Area: " ++ jsTrim f.area,
    "Name: " ++ jsTrim f.name,
    "Phone: " ++ jsTrim f.phone,
    if jsTrim f.message == "" then "" else "Details: " ++ jsTrim f.message]

/-- `waText`: the lines, `filter(Boolean)`-ed and joined with newlines. -/
def waText (f : Fields) : String :=
  String.intercalate "\n" ((waLines f).filter (fun l => l != ""))

/-- `waUrl`. -/
def waUrl (f : Fields) : String :=
  "https://wa.me/" ++ WHATSAPP_NUMBER ++ "?text=" ++ encodeURIComponent (waText f)

/-- The success-style feedback text of the fallback. -/
def fallbackFeedbackMsg : String :=
  "✓ Opening WhatsApp with your details pre-filled. We\x27ll reply within the hour!"

/-- The remote-success feedback text. -/
def sentFeedbackMsg : String :=
  "✓ Message sent! We\x27ll be in touch within the hour. For urgent jobs call us directly."

/-- The markup the submit button is restored to in both restore sites. -/
def restoreLabelHtml : String :=
  "<i class=\"fa-solid fa-paper-plane\"></i> Send My Enquiry — We\x27ll Reply Within 1 Hour"

/-- Modelled from the spec: the original label of the submit control (the HTML
document is outside src/); the spec says the control is restored to its
original label, which is the markup the code writes back. -/
def originalSubmitLabel : String := restoreLabelHtml

/-- User-visible side effects of a submission attempt, in the order they
take effect (timer-delayed effects ordered by their delay). -/
inductive UiAction where
  | feedback (message ty : String)
  | openWindow (url : String)
  | fetchPost (url : String)
  | resetForm
deriving DecidableEq

/-- `fallbackToWhatsApp()`: show the success-style notice, then (after the
1500 ms delay) open the WhatsApp deep link in a new browsing context. -/
def fallbackActions (f : Fields) : List UiAction :=
  [UiAction.feedback fallbackFeedbackMsg "success", UiAction.openWindow (waUrl f)]

/-- How the `fetch` to the configured endpoint settles. -/
inductive FetchOutcome where
  | ok
  | httpError
  | networkThrow
deriving DecidableEq

/-- Outcome of one submit-handler run: the per-field DOM
effects of the validation pass, the emitted actions in order, and the settled state
of the submit button (disabled flag, label markup) once all timers have fired. -/
structure SubmitResult where
  validation : FormValidation
  actions : List UiAction
  btnFinal : Bool × String
deriving DecidableEq

/-- The `submit` handler: validate (aborting while leaving the button
untouched on failure); with no endpoint, run the WhatsApp fallback and
re-enable the button after the 3000 ms timer; with an endpoint, POST and
either reset+notify on success or fall back, the `finally` block restoring
the button in every case. -/
def handleSubmit (actionUrl : String) (f : Fields) (r : FetchOutcome) : SubmitResult :=
  let v := validateFormStates f
  if !validateFormOk f then
    { validation := v, actions := [], btnFinal := (false, originalSubmitLabel) }
  else if actionUrl == "" then
    { validation := v, actions := fallbackActions f
      btnFinal := (false, restoreLabelHtml) }
  else
    match r with
    | FetchOutcome.ok =>
      { validation := v
        actions := [UiAction.fetchPost actionUrl, UiAction.resetForm,
          UiAction.feedback sentFeedbackMsg "success"]
        btnFinal := (false, restoreLabelHtml) }
    | FetchOutcome.httpError =>
      { validation := v
        actions := UiAction.fetchPost actionUrl :: fallbackActions f
        btnFinal := (false, restoreLabelHtml) }
    | FetchOutcome.networkThrow =>
      { validation := v
        actions := UiAction.fetchPost actionUrl :: fallbackActions f
        btnFinal := (false, restoreLabelHtml) }

/-- The feedback notices among the actions of a run, in order. -/
def feedbacksOf (l : List UiAction) : List (String × String) :=
  l.filterMap (fun a =>
    match a with
    | UiAction.feedback m t => some (m, t)
    | _ => none)

theorem jsTrim_or_empty (v : String) :
    (jsTrim v == "" || v == "") = (jsTrim v == "") := by
  by_cases h : v = ""
  · subst h; rfl
  · have h2 : (v == "") = false := by simpa using h
    rw [h2, Bool.or_false]

theorem validateField_present (value message : String) :
    validateField (some ⟨value, ""⟩) (some ⟨""⟩) message =
      { ok := !(jsTrim value == "")
        field := some ⟨value, if jsTrim value == "" then "#FF5555" else ""⟩
        error := some ⟨if jsTrim value == "" then message else ""⟩ } := by
  simp only [validateField, jsTrim_or_empty]

theorem validateFormOk_eq (f : Fields) :
    validateFormOk f =
      (!(jsTrim f.name == "") && !(jsTrim f.phone == "")
        && !(jsTrim f.service == "") && !(jsTrim f.area == "")) := by
  unfold validateFormOk validateFormStates
  rw [validateField_present, validateField_present, validateField_present,
    validateField_present]

/-- C10: when the input element of a required field or its error slot is missing
from the document, `validateField` reports the field valid and leaves both
(absent or present) elements untouched, so submission proceeds with the
field unchecked. -/
theorem validateField_missing_dom (field : Option ElemState) (error : Option SlotState)
    (message : String) (h : field = none ∨ error = none) :
    validateField field error message = { ok := true, field := field, error := error } := by
  rcases h with h | h
  · subst h; cases error <;> rfl
  · subst h; cases field <;> rfl

/-- Witness for C10: a missing input element. -/
theorem validateField_missing_dom_witness :
    validateField none (some ⟨""⟩) "Please enter your name." =
      { ok := true, field := none, error := some ⟨""⟩ } :=
  validateField_missing_dom none (some ⟨""⟩) "Please enter your name." (Or.inl rfl)

/-- C2: if any required field is empty after trimming, submission emits no
action at all (no POST, no deep link), and the validation pass writes, for
each of the four required fields, exactly its specific error message and the
invalid border when that field is empty, and clears both when it is not. -/
theorem contact_blocked_on_empty_required (f : Fields) (u : String) (r : FetchOutcome)
    (h : jsTrim f.name = "" ∨ jsTrim f.phone = "" ∨ jsTrim f.service = ""
      ∨ jsTrim f.area = "") :
    (handleSubmit u f r).actions = []
    ∧ (validateFormStates f).nameRes.field =
        some ⟨f.name, if jsTrim f.name == "" then "#FF5555" else ""⟩
    ∧ (validateFormStates f).nameRes.error =
        some ⟨if jsTrim f.name == "" then "Please enter your name." else ""⟩
    ∧ (validateFormStates f).phoneRes.field =
        some ⟨f.phone, if jsTrim f.phone == "" then "#FF5555" else ""⟩
    ∧ (validateFormStates f).phoneRes.error =
        some ⟨if jsTrim f.phone == "" then "Please enter your phone number." else ""⟩
    ∧ (validateFormStates f).serviceRes.field =
        some ⟨f.service, if jsTrim f.service == "" then "#FF5555" else ""⟩
    ∧ (validateFormStates f).serviceRes.error =
        some ⟨if jsTrim f.service == "" then "Please select a service type." else ""⟩
    ∧ (validateFormStates f).areaRes.field =
        some ⟨f.area, if jsTrim f.area == "" then "#FF5555" else ""⟩
    ∧ (validateFormStates f).areaRes.error =
        some ⟨if jsTrim f.area == "" then "Please enter your area or suburb." else ""⟩ := by
  have hok : validateFormOk f = false := by
    rw [validateFormOk_eq]
    rcases h with h | h | h | h <;> simp [h]
  refine ⟨by simp [handleSubmit, hok], ?_, ?_, ?_, ?_, ?_, ?_, ?_, ?_⟩ <;>
    simp [validateFormStates, validateField_present]

/-- Witness for C2: a whitespace-only name blocks the submission. -/
theorem contact_blocked_on_empty_required_witness :
    (handleSubmit "" (⟨"   ", "0771234567", "solar", "Harare", ""⟩ : Fields)
      FetchOutcome.ok).actions = [] :=
  (contact_blocked_on_empty_required ⟨"   ", "0771234567", "solar", "Harare", ""⟩
    "" FetchOutcome.ok (Or.inl (by decide))).1

/-- C1: with an endpoint configured, a failing HTTP status or a thrown
network error makes the handler run the WhatsApp fallback, and the
success-style notice of the fallback is the only user-facing message (no distinct
error notice). -/
theorem contact_remote_failure_fallback (u : String) (f : Fields) (r : FetchOutcome)
    (hu : u ≠ "") (hr : r = FetchOutcome.httpError ∨ r = FetchOutcome.networkThrow)
    (hv : validateFormOk f = true) :
    (handleSubmit u f r).actions = UiAction.fetchPost u :: fallbackActions f
    ∧ feedbacksOf (handleSubmit u f r).actions = [(fallbackFeedbackMsg, "success")] := by
  have hu2 : (u == "") = false := by simpa using hu
  rcases hr with hr | hr <;> subst hr <;>
    exact ⟨by simp [handleSubmit, hv, hu2],
      by simp [handleSubmit, hv, hu2, fallbackActions, feedbacksOf]⟩

/-- Example filled form for the submission witnesses. -/
def johnFields : Fields := ⟨"John", "0771234567", "solar", "Harare", ""⟩

/-- Witness for C1: failing status at a configured endpoint. -/
theorem contact_remote_failure_fallback_witness :
    (handleSubmit "https://formspree.io/f/demo" johnFields
        FetchOutcome.httpError).actions =
      UiAction.fetchPost "https://formspree.io/f/demo" :: fallbackActions johnFields :=
  (contact_remote_failure_fallback "https://formspree.io/f/demo" johnFields
    FetchOutcome.httpError (by decide) (Or.inl rfl) (by decide)).1

/-- C9: every submission attempt that passed validation leaves the submit
control re-enabled and carrying its original label once the attempt (and its
timers) conclude, whatever the endpoint configuration and fetch outcome. -/
theorem submit_button_restored (u : String) (f : Fields) (r : FetchOutcome)
    (hv : validateFormOk f = true) :
    (handleSubmit u f r).btnFinal = (false, originalSubmitLabel) := by
  cases r <;> by_cases hu : (u == "") = true <;>
    simp [handleSubmit, hv, hu, originalSubmitLabel]

/-- Witness for C9: the shipped no-endpoint configuration. -/
theorem submit_button_restored_witness :
    (handleSubmit FORM_ACTION_URL johnFields FetchOutcome.ok).btnFinal =
      (false, originalSubmitLabel) :=
  submit_button_restored FORM_ACTION_URL johnFields FetchOutcome.ok (by decide)

set_option maxRecDepth 40000 in
/-- C8: with no endpoint configured and the form filled with name John,
phone 0771234567, service solar, area Harare, the handler shows the
success-style notice first and then opens the WhatsApp deep link, whose
text carries the mapped service label and the four expected lines. -/
theorem whatsapp_fallback_scenario :
    (handleSubmit FORM_ACTION_URL johnFields FetchOutcome.ok).actions =
      [UiAction.feedback fallbackFeedbackMsg "success",
        UiAction.openWindow (waUrl johnFields)]
    ∧ waUrl johnFields =
        "https://wa.me/" ++ WHATSAPP_NUMBER ++ "?text="
          ++ encodeURIComponent (waText johnFields)
    ∧ strContains (waText johnFields) "Service: Solar Installation" = true
    ∧ strContains (waText johnFields) "Area: Harare" = true
    ∧ strContains (waText johnFields) "Name: John" = true
    ∧ strContains (waText johnFields) "Phone: 0771234567" = true :=
  ⟨by decide, rfl, by decide, by decide, by decide, by decide⟩
